import Mathlib

/-!
Shallow embedding of `src/st/st-scroll-view.c` (StScrollView, the scrollable
single-child container of the St toolkit).

Sizes and coordinates are modelled as rationals (`ℚ`): the C code computes with
`gfloat`/`double` but every operation verified here is plain comparison,
addition and subtraction, which floats perform exactly on the integral values
used in all concrete witnesses.  External collaborators (the scrollable child,
the two scrollbar actors, the theme node) are modelled as records of the query
functions the C code calls on them, so a state carries the collaborators'
responses as functions.
-/

/-- The `StPolicyType` from `st-enum-types`: per-axis scrollbar visibility policy. -/
inductive StPolicyType where
  | never
  | always
  | automatic
  | external
deriving DecidableEq

/-- The `ClutterTextDirection`: layout direction of the actor. -/
inductive ClutterTextDirection where
  | ltr
  | rtl
deriving DecidableEq

/-- The `ClutterRequestMode`: which axis is negotiated first. -/
inductive ClutterRequestMode where
  | height_for_width
  | width_for_height
deriving DecidableEq

/-- The `ClutterActorBox`: a rectangle given by its two corners. -/
structure ClutterActorBox where
  x1 : ℚ
  y1 : ℚ
  x2 : ℚ
  y2 : ℚ
deriving DecidableEq

/-- The scrollable child, as the container sees it: the two Clutter size
queries.  `get_preferred_width for_height = (minimum, natural)`, and
symmetrically for the height query. -/
structure StScrollableChild where
  get_preferred_width : ℚ → ℚ × ℚ
  get_preferred_height : ℚ → ℚ × ℚ

/-- A scrollbar actor: its Clutter visibility flag and its preferred size
queries (the C code only ever reads the minimum size of a scrollbar, so the
queries return just that). -/
structure StScrollBarActor where
  visible : Bool
  get_preferred_width : ℚ → ℚ
  get_preferred_height : ℚ → ℚ

/-- The `StAdjustment`, reduced to the one field this file reads and writes
through g_object_get/set: the step increment. -/
structure StAdjustment where
  step_increment : ℚ
deriving DecidableEq

/-- The theme node collaborator: content-box computation and the preferred-size
and for-size adjustments `st_theme_node_*` provide. -/
structure StThemeNode where
  get_content_box : ClutterActorBox → ClutterActorBox
  adjust_for_height : ℚ → ℚ
  adjust_for_width : ℚ → ℚ
  adjust_preferred_width : ℚ → ℚ → ℚ × ℚ
  adjust_preferred_height : ℚ → ℚ → ℚ × ℚ

/-- The `StScrollViewPrivate` together with the actor-level state the layout code
reads (`theme_node`, text direction, request mode). -/
structure StScrollView where
  child : Option StScrollableChild
  hadjustment : StAdjustment
  vadjustment : StAdjustment
  hscroll : StScrollBarActor
  vscroll : StScrollBarActor
  hscrollbar_policy : StPolicyType
  vscrollbar_policy : StPolicyType
  row_size : ℚ
  column_size : ℚ
  row_size_set : Bool
  column_size_set : Bool
  mouse_scroll : Bool
  overlay_scrollbars : Bool
  hscrollbar_visible : Bool
  vscrollbar_visible : Bool
  theme_node : StThemeNode
  text_direction : ClutterTextDirection
  request_mode : ClutterRequestMode

/-- The `get_scrollbar_width`: the vertical scrollbar's preferred (minimum) width
for the given height, but only when the scrollbar actor is currently visible;
0 otherwise. -/
def get_scrollbar_width (scroll : StScrollView) (for_height : ℚ) : ℚ :=
  if scroll.vscroll.visible then scroll.vscroll.get_preferred_width for_height
  else 0

/-- The `get_scrollbar_height`: the horizontal scrollbar's preferred (minimum)
height for the given width, but only when the scrollbar actor is currently
visible; 0 otherwise. -/
def get_scrollbar_height (scroll : StScrollView) (for_width : ℚ) : ℚ :=
  if scroll.hscroll.visible then scroll.hscroll.get_preferred_height for_width
  else 0

/-- The `st_scroll_view_get_preferred_width`.  The C function writes through two
out-pointers and returns nothing when there is no child; modelled as `none`
in that case and `some (min_width, natural_width)` otherwise. -/
def st_scroll_view_get_preferred_width (scroll : StScrollView) (for_height : ℚ) :
    Option (ℚ × ℚ) :=
  match scroll.child with
  | none => none
  | some child =>
      let fh := scroll.theme_node.adjust_for_height for_height
      let child_min_width := (child.get_preferred_width (-1)).1
      let child_natural_width := (child.get_preferred_width (-1)).2
      let natural_width := child_natural_width
      let min_width : ℚ :=
        match scroll.hscrollbar_policy with
        | .never => child_min_width
        | .always | .automatic | .external => 0
      let account_for_vscrollbar : Bool :=
        match scroll.vscrollbar_policy with
        | .never | .external => false
        | .always => !scroll.overlay_scrollbars
        | .automatic => !scroll.overlay_scrollbars
      let min_width :=
        if account_for_vscrollbar then min_width + get_scrollbar_width scroll fh
        else min_width
      let natural_width :=
        if account_for_vscrollbar then natural_width + get_scrollbar_width scroll fh
        else natural_width
      some (scroll.theme_node.adjust_preferred_width min_width natural_width)

/-- The `st_scroll_view_get_preferred_height`, modelled like the width query.
The child's minimum width is queried first (only for its side effect in C;
kept here to mirror the source), then the vertical-scrollbar reservation is
subtracted back out of the for-width constraint before measuring the child. -/
def st_scroll_view_get_preferred_height (scroll : StScrollView) (for_width : ℚ) :
    Option (ℚ × ℚ) :=
  match scroll.child with
  | none => none
  | some child =>
      let fw := scroll.theme_node.adjust_for_width for_width
      let _child_min_width := (child.get_preferred_width (-1)).1
      let sb_width := get_scrollbar_width scroll (-1)
      let fw :=
        match scroll.vscrollbar_policy with
        | .never | .external => fw
        | .always | .automatic => fw - sb_width
      let account_for_hscrollbar : Bool :=
        match scroll.hscrollbar_policy with
        | .never | .external => false
        | .always => !scroll.overlay_scrollbars
        | .automatic => !scroll.overlay_scrollbars
      let child_min_height := (child.get_preferred_height fw).1
      let child_natural_height := (child.get_preferred_height fw).2
      let natural_height := child_natural_height
      let min_height : ℚ :=
        match scroll.vscrollbar_policy with
        | .never => child_min_height
        | .always | .automatic | .external => 0
      let min_height :=
        if account_for_hscrollbar then min_height + get_scrollbar_height scroll fw
        else min_height
      let natural_height :=
        if account_for_hscrollbar then natural_height + get_scrollbar_height scroll fw
        else natural_height
      some (scroll.theme_node.adjust_preferred_height min_height natural_height)

/-- Pass one of the both-axes-AUTOMATIC branch of `st_scroll_view_allocate`
(lines 578-582): provisional vertical flag from the child's preferred height
at the full available width, horizontal flag against the width minus the
provisional vertical allowance, then the vertical flag recomputed against the
height minus the horizontal allowance.  Returns the pair
(hscrollbar_visible, vscrollbar_visible) as it stands at the end of pass one. -/
def both_automatic_pass_one (child_min_width child_min_height
    avail_width avail_height sb_width sb_height : ℚ) : Bool × Bool :=
  let vscrollbar_visible := decide (child_min_height > avail_height)
  let hscrollbar_visible :=
    decide (child_min_width > avail_width - (if vscrollbar_visible then sb_width else 0))
  let vscrollbar_visible :=
    decide (child_min_height >
      avail_height - (if hscrollbar_visible then sb_height else 0))
  (hscrollbar_visible, vscrollbar_visible)

/-- The both-axes-AUTOMATIC branch of `st_scroll_view_allocate` (lines
576-591): pass one, then, when the vertical scrollbar turned out to be
needed, the child's preferred height is re-measured at
`MAX (avail_width - sb_width, 0)` (a query whose result the C code does not
read again) and the horizontal check is redone against
`avail_width - sb_width`. -/
def resolve_both_automatic (child : StScrollableChild)
    (child_min_width avail_width avail_height sb_width sb_height : ℚ) : Bool × Bool :=
  let child_min_height := (child.get_preferred_height avail_width).1
  let pass_one := both_automatic_pass_one child_min_width child_min_height
    avail_width avail_height sb_width sb_height
  if pass_one.2 then
    let _remeasured_min_height :=
      (child.get_preferred_height (max (avail_width - sb_width) 0)).1
    (decide (child_min_width > avail_width - sb_width), pass_one.2)
  else
    pass_one

/-- The scrollbar-visibility resolution of `st_scroll_view_allocate` (lines
560-617), case split exactly as the source: child present or not, then the
vertical and horizontal policies. -/
def resolve_visibility (scroll : StScrollView)
    (avail_width avail_height sb_width sb_height : ℚ) : Bool × Bool :=
  match scroll.child with
  | some child =>
      let child_min_width := (child.get_preferred_width (-1)).1
      if scroll.vscrollbar_policy = .automatic then
        if scroll.hscrollbar_policy = .automatic then
          resolve_both_automatic child child_min_width
            avail_width avail_height sb_width sb_height
        else
          let hscrollbar_visible := decide (scroll.hscrollbar_policy = .always)
          let child_min_height := (child.get_preferred_height avail_width).1
          let vscrollbar_visible :=
            decide (child_min_height >
              avail_height - (if hscrollbar_visible then sb_height else 0))
          (hscrollbar_visible, vscrollbar_visible)
      else
        let vscrollbar_visible := decide (scroll.vscrollbar_policy = .always)
        let hscrollbar_visible :=
          if scroll.hscrollbar_policy = .automatic then
            decide (child_min_width >
              avail_height - (if vscrollbar_visible then 0 else sb_width))
          else
            decide (scroll.hscrollbar_policy = .always)
        (hscrollbar_visible, vscrollbar_visible)
  | none =>
      (decide (scroll.hscrollbar_policy ≠ .never ∧
               scroll.hscrollbar_policy ≠ .external),
       decide (scroll.vscrollbar_policy ≠ .never ∧
               scroll.vscrollbar_policy ≠ .external))

/-- The scrollbar thickness pair of `st_scroll_view_allocate` (lines 549-558):
one scrollbar is queried unconstrained and the other constrained by the
first's result, in the order given by the request mode. -/
def scrollbar_thickness (scroll : StScrollView) : ℚ × ℚ :=
  match scroll.request_mode with
  | .height_for_width =>
      let sb_width := get_scrollbar_width scroll (-1)
      (sb_width, get_scrollbar_height scroll sb_width)
  | .width_for_height =>
      let sb_height := get_scrollbar_height scroll (-1)
      (get_scrollbar_width scroll sb_height, sb_height)

/-- The visibility pair `st_scroll_view_allocate` computes for a given
allocation box: available sizes from the theme node's content box, scrollbar
thicknesses, then `resolve_visibility`. -/
def allocate_visibility (scroll : StScrollView) (box : ClutterActorBox) :
    Bool × Bool :=
  let content_box := scroll.theme_node.get_content_box box
  let sb := scrollbar_thickness scroll
  resolve_visibility scroll (content_box.x2 - content_box.x1)
    (content_box.y2 - content_box.y1) sb.1 sb.2

/-- The vertical scrollbar's allocation box (lines 626-640): flush against the
trailing edge of the content box (leading edge under RTL), full content height
minus the horizontal bar's thickness when that bar is visible. -/
def allocate_vscroll_box (scroll : StScrollView) (content_box : ClutterActorBox)
    (sb_width sb_height : ℚ) (hscrollbar_visible : Bool) : ClutterActorBox :=
  { x1 := if scroll.text_direction = .rtl then content_box.x1
          else content_box.x2 - sb_width
    y1 := content_box.y1
    x2 := if scroll.text_direction = .rtl then content_box.x1 + sb_width
          else content_box.x2
    y2 := content_box.y2 - (if hscrollbar_visible then sb_height else 0) }

/-- The horizontal scrollbar's allocation box (lines 642-656): along the
bottom edge, shortened by the vertical bar's width on the side that bar
occupies. -/
def allocate_hscroll_box (scroll : StScrollView) (content_box : ClutterActorBox)
    (sb_width sb_height : ℚ) (vscrollbar_visible : Bool) : ClutterActorBox :=
  { x1 := if scroll.text_direction = .rtl then
            content_box.x1 + (if vscrollbar_visible then sb_width else 0)
          else content_box.x1
    y1 := content_box.y2 - sb_height
    x2 := if scroll.text_direction = .rtl then content_box.x2
          else content_box.x2 - (if vscrollbar_visible then sb_width else 0)
    y2 := content_box.y2 }

/-- The child's allocation box (lines 658-685), after the scrollbar sizes have
been zeroed for NEVER/EXTERNAL policies and for overlay scrollbars. -/
def allocate_child_box (scroll : StScrollView) (content_box : ClutterActorBox)
    (sb_width sb_height : ℚ) : ClutterActorBox :=
  let sb_height :=
    if scroll.hscrollbar_policy = .never ∨ scroll.hscrollbar_policy = .external ∨
       scroll.overlay_scrollbars then 0
    else sb_height
  let sb_width :=
    if scroll.vscrollbar_policy = .never ∨ scroll.vscrollbar_policy = .external ∨
       scroll.overlay_scrollbars then 0
    else sb_width
  { x1 := if scroll.text_direction = .rtl then content_box.x1 + sb_width
          else content_box.x1
    y1 := content_box.y1
    x2 := if scroll.text_direction = .rtl then content_box.x2
          else content_box.x2 - sb_width
    y2 := content_box.y2 - sb_height }

/-- Everything observable about one `st_scroll_view_allocate` call: the three
sub-boxes handed to `clutter_actor_allocate`, whether each visibility property
was notified, and the updated widget state. -/
structure AllocateResult where
  state : StScrollView
  vscroll_box : ClutterActorBox
  hscroll_box : ClutterActorBox
  child_box : ClutterActorBox
  notified_hscrollbar_visible : Bool
  notified_vscrollbar_visible : Bool

/-- The `st_scroll_view_allocate` (lines 531-708): content box, scrollbar
thicknesses, visibility resolution, the three sub-boxes, and the
stored-visibility update with one notification per changed flag. -/
def st_scroll_view_allocate (scroll : StScrollView) (box : ClutterActorBox) :
    AllocateResult :=
  let content_box := scroll.theme_node.get_content_box box
  let sb := scrollbar_thickness scroll
  let vis := allocate_visibility scroll box
  { state := { scroll with hscrollbar_visible := vis.1, vscrollbar_visible := vis.2 }
    vscroll_box := allocate_vscroll_box scroll content_box sb.1 sb.2 vis.1
    hscroll_box := allocate_hscroll_box scroll content_box sb.1 sb.2 vis.2
    child_box := allocate_child_box scroll content_box sb.1 sb.2
    notified_hscrollbar_visible := decide (scroll.hscrollbar_visible ≠ vis.1)
    notified_vscrollbar_visible := decide (scroll.vscrollbar_visible ≠ vis.2) }

/-! ## Container remove (`st_scroll_view_remove`, lines 1001-1032)

For removal the actors matter only by identity, so here a state is the three
tracked actor slots plus the actor tree's child list, with actors as naturals. -/

/-- The container state `st_scroll_view_remove` reads and writes. -/
structure ContainerState where
  child : Option ℕ
  vscroll : Option ℕ
  hscroll : Option ℕ
  tree_children : List ℕ
deriving DecidableEq

/-- The outcome of a remove call: either the process aborts in `g_assert`, or
the call completes with an updated state. -/
inductive RemoveOutcome where
  | assertion_failed
  | ok (state : ContainerState)
deriving DecidableEq

/-- The `g_assert (cond)`: aborts the process when `cond` is false, otherwise the
computation continues. -/
def gAssert (cond : Bool) (continuation : RemoveOutcome) : RemoveOutcome :=
  if cond then continuation else .assertion_failed

/-- Line 1028 reads `g_assert ("Unknown child removed from StScrollView")`:
the condition tested is the string literal itself, i.e. a non-NULL pointer,
which as a C truth value is always true. -/
def unknown_child_message_is_non_null : Bool := true

/-- The `st_scroll_view_remove`: the tracked child is detached and its adjustments
cleared; otherwise the matching scrollbar slot is nulled (or, for an unknown
actor, `g_assert` runs on the string literal) and the actor is removed from
the tree. -/
def st_scroll_view_remove (s : ContainerState) (actor : ℕ) : RemoveOutcome :=
  if s.child = some actor then
    .ok { s with child := none, tree_children := s.tree_children.erase actor }
  else if s.vscroll = some actor then
    .ok { s with vscroll := none, tree_children := s.tree_children.erase actor }
  else if s.hscroll = some actor then
    .ok { s with hscroll := none, tree_children := s.tree_children.erase actor }
  else
    gAssert unknown_child_message_is_non_null
      (.ok { s with tree_children := s.tree_children.erase actor })

/-! ## Step-size accessors (lines 1093-1192) -/

/-- The `st_scroll_view_get_column_size`: reads the horizontal adjustment's
step increment. -/
def st_scroll_view_get_column_size (scroll : StScrollView) : ℚ :=
  scroll.hadjustment.step_increment

/-- The `st_scroll_view_set_column_size`: a negative size clears the override flag
and stores the -1 sentinel; a non-negative size stores it and writes it to the
horizontal adjustment's step increment. -/
def st_scroll_view_set_column_size (scroll : StScrollView) (column_size : ℚ) :
    StScrollView :=
  if column_size < 0 then
    { scroll with column_size_set := false, column_size := -1 }
  else
    { scroll with
      column_size_set := true
      column_size := column_size
      hadjustment := { step_increment := column_size } }

/-- The `st_scroll_view_get_row_size`: reads the vertical adjustment's
step increment. -/
def st_scroll_view_get_row_size (scroll : StScrollView) : ℚ :=
  scroll.vadjustment.step_increment

/-- The `st_scroll_view_set_row_size`: mirror image of
`st_scroll_view_set_column_size` on the vertical axis. -/
def st_scroll_view_set_row_size (scroll : StScrollView) (row_size : ℚ) :
    StScrollView :=
  if row_size < 0 then
    { scroll with row_size_set := false, row_size := -1 }
  else
    { scroll with
      row_size_set := true
      row_size := row_size
      vadjustment := { step_increment := row_size } }

/-! ## Scroll-event router (lines 710-819) -/

/-- The `ClutterScrollDirection`. -/
inductive ClutterScrollDirection where
  | up
  | down
  | left
  | right
  | smooth
deriving DecidableEq

/-- The parts of a `ClutterEvent` the router reads: the pointer-emulated flag,
the direction, and (for smooth events) the raw delta pair. -/
structure ClutterScrollEvent where
  pointer_emulated : Bool
  direction : ClutterScrollDirection
  delta_x : ℚ
  delta_y : ℚ

/-- Which adjustment a delta is forwarded to. -/
inductive AdjustmentId where
  | hadjustment
  | vadjustment
deriving DecidableEq

/-- The `adjust_with_direction` (lines 710-733): the unit delta for a discrete
direction; `none` stands for the `g_assert_not_reached` on SMOOTH, which the
callers never hit. -/
def adjust_with_direction (direction : ClutterScrollDirection) : Option ℚ :=
  match direction with
  | .up | .left => some (-1)
  | .right | .down => some 1
  | .smooth => none

/-- The `st_scroll_view_scroll_event` (lines 761-819), returning the C boolean
result and the list of `st_adjustment_adjust_for_scroll_event` calls it makes,
as (target adjustment, delta) pairs in call order. -/
def st_scroll_view_scroll_event (scroll : StScrollView)
    (event : ClutterScrollEvent) : Bool × List (AdjustmentId × ℚ) :=
  if !scroll.mouse_scroll then (false, [])
  else if event.pointer_emulated then (true, [])
  else
    match event.direction with
    | .smooth =>
        let delta_x :=
          if scroll.text_direction = .rtl then event.delta_x * (-1)
          else event.delta_x
        (true, [(.hadjustment, delta_x), (.vadjustment, event.delta_y)])
    | .up | .down =>
        (true, (adjust_with_direction event.direction).elim []
          (fun delta => [(.vadjustment, delta)]))
    | .left | .right =>
        if scroll.text_direction = .rtl then
          let dir := if event.direction = .left then ClutterScrollDirection.right
                     else ClutterScrollDirection.left
          (true, (adjust_with_direction dir).elim []
            (fun delta => [(.hadjustment, delta)]))
        else
          (true, (adjust_with_direction event.direction).elim []
            (fun delta => [(.hadjustment, delta)]))

/-! ## Policy setter (`st_scroll_view_set_policy`, lines 1297-1330) -/

/-- One `st_scroll_view_set_policy` call: the updated state, which of the two
policy properties were notified, and whether a relayout was queued. -/
structure SetPolicyResult where
  state : StScrollView
  notified_hscrollbar_policy : Bool
  notified_vscrollbar_policy : Bool
  queued_relayout : Bool

/-- The `st_scroll_view_set_policy`: early return when both policies already have
the requested values; otherwise each differing policy is stored and notified,
and one relayout is queued. -/
def st_scroll_view_set_policy (scroll : StScrollView)
    (hscroll_policy vscroll_policy : StPolicyType) : SetPolicyResult :=
  if scroll.hscrollbar_policy = hscroll_policy ∧
     scroll.vscrollbar_policy = vscroll_policy then
    { state := scroll
      notified_hscrollbar_policy := false
      notified_vscrollbar_policy := false
      queued_relayout := false }
  else
    let notified_h := decide (scroll.hscrollbar_policy ≠ hscroll_policy)
    let s1 := if scroll.hscrollbar_policy ≠ hscroll_policy then
                { scroll with hscrollbar_policy := hscroll_policy }
              else scroll
    let notified_v := decide (s1.vscrollbar_policy ≠ vscroll_policy)
    let s2 := if s1.vscrollbar_policy ≠ vscroll_policy then
                { s1 with vscrollbar_policy := vscroll_policy }
              else s1
    { state := s2
      notified_hscrollbar_policy := notified_h
      notified_vscrollbar_policy := notified_v
      queued_relayout := true }

/-! ## Concrete collaborators for the closed statements -/

/-- A theme node with no padding, border or inset: every adjustment is the
identity. -/
def id_theme_node : StThemeNode where
  get_content_box := fun box => box
  adjust_for_height := fun h => h
  adjust_for_width := fun w => w
  adjust_preferred_width := fun m n => (m, n)
  adjust_preferred_height := fun m n => (m, n)

/-- A visible scrollbar actor of constant thickness 16. -/
def bar16 : StScrollBarActor where
  visible := true
  get_preferred_width := fun _ => 16
  get_preferred_height := fun _ => 16

/-- A widget in its `st_scroll_view_init` configuration (both policies
AUTOMATIC, mouse scroll on, no overlay, no child), with thickness-16
scrollbars and the identity theme node. -/
def base_view : StScrollView where
  child := none
  hadjustment := { step_increment := 0 }
  vadjustment := { step_increment := 0 }
  hscroll := bar16
  vscroll := bar16
  hscrollbar_policy := .automatic
  vscrollbar_policy := .automatic
  row_size := -1
  column_size := -1
  row_size_set := false
  column_size_set := false
  mouse_scroll := true
  overlay_scrollbars := false
  hscrollbar_visible := false
  vscrollbar_visible := false
  theme_node := id_theme_node
  text_direction := .ltr
  request_mode := .height_for_width

/-- The child of the spec's two-pass scenario: minimum width 290 at any
height; minimum height 250 when measured at width 300 or more, 150 at any
narrower width. -/
def scenario_child : StScrollableChild where
  get_preferred_width := fun _ => (290, 290)
  get_preferred_height := fun w => if w < 300 then (150, 150) else (250, 250)

/-- The spec's two-pass scenario widget: both policies AUTOMATIC, scrollbar
thickness 16, the scenario child. -/
def c1_scenario_state : StScrollView :=
  { base_view with child := some scenario_child }

/-- The spec's two-pass scenario box: a 300×200 content box. -/
def c1_box : ClutterActorBox := { x1 := 0, y1 := 0, x2 := 300, y2 := 200 }

/-- The `decide (x ≠ x)` is `false` at any term of a decidable type. -/
theorem decide_ne_self_eq_false {α : Type} [DecidableEq α] (x : α) :
    decide (x ≠ x) = false :=
  decide_eq_false (fun h => h rfl)

/-- C10: a preferred-width or preferred-height query with no child present
returns immediately without producing any output (the C function leaves the
caller's out-locations untouched and applies no theme adjustment): in the
model, both queries answer `none`. -/
theorem c10_preferred_size_no_child (scroll : StScrollView)
    (for_height for_width : ℚ) (h : scroll.child = none) :
    st_scroll_view_get_preferred_width scroll for_height = none ∧
    st_scroll_view_get_preferred_height scroll for_width = none := by
  constructor
  · unfold st_scroll_view_get_preferred_width
    rw [h]
  · unfold st_scroll_view_get_preferred_height
    rw [h]

/-- C10 at a concrete input: the initial widget has no child, and both
queries answer `none`. -/
theorem c10_preferred_size_no_child_witness :
    st_scroll_view_get_preferred_width base_view 37 = none ∧
    st_scroll_view_get_preferred_height base_view 41 = none :=
  c10_preferred_size_no_child base_view 37 41 rfl

/-- C9: `set_policy (h, v)` leaves the stored policies exactly `(h, v)`, and
a call with the currently stored pair notifies nothing, queues no relayout
and changes no state. -/
theorem c9_set_policy_round_trip (scroll : StScrollView)
    (hp vp : StPolicyType) :
    ((st_scroll_view_set_policy scroll hp vp).state.hscrollbar_policy = hp ∧
     (st_scroll_view_set_policy scroll hp vp).state.vscrollbar_policy = vp) ∧
    (scroll.hscrollbar_policy = hp ∧ scroll.vscrollbar_policy = vp →
      (st_scroll_view_set_policy scroll hp vp).notified_hscrollbar_policy = false ∧
      (st_scroll_view_set_policy scroll hp vp).notified_vscrollbar_policy = false ∧
      (st_scroll_view_set_policy scroll hp vp).queued_relayout = false ∧
      (st_scroll_view_set_policy scroll hp vp).state = scroll) := by
  unfold st_scroll_view_set_policy
  by_cases heq : scroll.hscrollbar_policy = hp ∧ scroll.vscrollbar_policy = vp
  · simp [heq, heq.1, heq.2]
  · by_cases h1 : scroll.hscrollbar_policy = hp
    · by_cases h2 : scroll.vscrollbar_policy = vp
      · exact absurd ⟨h1, h2⟩ heq
      · simp [heq, h1, h2]
    · by_cases h2 : scroll.vscrollbar_policy = vp
      · simp [heq, h1, h2]
      · simp [heq, h1, h2]

/-- C7: a second `allocate` with the identical box and no intervening state
change reproduces all three sub-boxes, leaves the state as it was, and
notifies neither visibility property. -/
theorem c7_allocate_idempotent (scroll : StScrollView) (box : ClutterActorBox) :
    (st_scroll_view_allocate (st_scroll_view_allocate scroll box).state box).vscroll_box =
      (st_scroll_view_allocate scroll box).vscroll_box ∧
    (st_scroll_view_allocate (st_scroll_view_allocate scroll box).state box).hscroll_box =
      (st_scroll_view_allocate scroll box).hscroll_box ∧
    (st_scroll_view_allocate (st_scroll_view_allocate scroll box).state box).child_box =
      (st_scroll_view_allocate scroll box).child_box ∧
    (st_scroll_view_allocate (st_scroll_view_allocate scroll box).state box).state =
      (st_scroll_view_allocate scroll box).state ∧
    (st_scroll_view_allocate (st_scroll_view_allocate scroll box).state box).notified_hscrollbar_visible
      = false ∧
    (st_scroll_view_allocate (st_scroll_view_allocate scroll box).state box).notified_vscrollbar_visible
      = false :=
  ⟨rfl, rfl, rfl, rfl,
   decide_ne_self_eq_false (allocate_visibility scroll box).1,
   decide_ne_self_eq_false (allocate_visibility scroll box).2⟩

/-- The container state for the unknown-child removal: child 1, vertical
scrollbar 2, horizontal scrollbar 3, and an unrelated actor 7 in the tree. -/
def c4_state : ContainerState where
  child := some 1
  vscroll := some 2
  hscroll := some 3
  tree_children := [1, 2, 3, 7]

/-- C4 is a code bug, evaluated here: removing actor 7 — which is neither the
tracked child nor either scrollbar — does not abort.  The `g_assert` at line
1028 tests the string literal `"Unknown child removed from StScrollView"`, a
non-NULL pointer that is always true, so the call falls through and detaches
the actor from the tree. -/
theorem c4_unknown_child_remove_proceeds :
    st_scroll_view_remove c4_state 7 =
      .ok { child := some 1, vscroll := some 2, hscroll := some 3,
            tree_children := [1, 2, 3] } ∧
    st_scroll_view_remove c4_state 7 ≠ .assertion_failed := by
  constructor
  · rfl
  · intro h
    exact absurd h (by decide)

/-- A widget whose two adjustments start with step increment 10 (their
"default" value in the sense of the claim: the value they hold before any
explicit set_column_size/set_row_size). -/
def c5_state : StScrollView :=
  { base_view with
    hadjustment := { step_increment := 10 }
    vadjustment := { step_increment := 10 } }

/-- C5 counterexample: after `set_column_size 5` then `set_column_size (-1)`,
`get_column_size` still answers 5, the last explicitly set value — not the
adjustment's prior default 10.  The row-size pair behaves the same way.  The
negative branch of the setters never writes the adjustment's step increment,
so nothing "reverts". -/
theorem c5_negative_size_keeps_step_increment :
    st_scroll_view_get_column_size
      (st_scroll_view_set_column_size
        (st_scroll_view_set_column_size c5_state 5) (-1)) = 5 ∧
    st_scroll_view_get_row_size
      (st_scroll_view_set_row_size
        (st_scroll_view_set_row_size c5_state 5) (-1)) = 5 ∧
    ((5 : ℚ) ≠ 10) := by
  refine ⟨?_, ?_, by norm_num⟩ <;> rfl

/-- C5 amended: a negative input to set_column_size/set_row_size clears the
override flag and stores the -1 sentinel, but leaves the corresponding
adjustment's step increment exactly as it was, so a subsequent
get_column_size/get_row_size returns the step increment the adjustment
already held (the last explicitly set value, if any). -/
theorem c5_negative_size_unset_amended (scroll : StScrollView) (size : ℚ)
    (h : size < 0) :
    st_scroll_view_set_column_size scroll size =
      { scroll with column_size_set := false, column_size := -1 } ∧
    st_scroll_view_set_row_size scroll size =
      { scroll with row_size_set := false, row_size := -1 } ∧
    st_scroll_view_get_column_size (st_scroll_view_set_column_size scroll size) =
      st_scroll_view_get_column_size scroll ∧
    st_scroll_view_get_row_size (st_scroll_view_set_row_size scroll size) =
      st_scroll_view_get_row_size scroll := by
  unfold st_scroll_view_set_column_size st_scroll_view_set_row_size
    st_scroll_view_get_column_size st_scroll_view_get_row_size
  simp [h]

/-- C5 amended, at a concrete input: setting -3 on a widget whose adjustments
hold 10 clears the overrides and leaves both step increments at 10. -/
theorem c5_negative_size_unset_witness :
    st_scroll_view_set_column_size c5_state (-3) =
      { c5_state with column_size_set := false, column_size := -1 } ∧
    st_scroll_view_set_row_size c5_state (-3) =
      { c5_state with row_size_set := false, row_size := -1 } ∧
    st_scroll_view_get_column_size (st_scroll_view_set_column_size c5_state (-3)) =
      st_scroll_view_get_column_size c5_state ∧
    st_scroll_view_get_row_size (st_scroll_view_set_row_size c5_state (-3)) =
      st_scroll_view_get_row_size c5_state :=
  c5_negative_size_unset_amended c5_state (-3) (by norm_num)

/-- C8: with mouse scroll enabled and the event not pointer-emulated, the
router reports the event handled and forwards: for a smooth event, the raw
`dx` (negated under RTL) to the horizontal adjustment and the raw `dy` to the
vertical one; for discrete up/down, a unit -1/+1 to the vertical adjustment;
for discrete left/right, a unit -1/+1 to the horizontal adjustment with the
sign mirrored under RTL. -/
theorem c8_scroll_event_routing (scroll : StScrollView)
    (event : ClutterScrollEvent) (hm : scroll.mouse_scroll = true)
    (hp : event.pointer_emulated = false) :
    st_scroll_view_scroll_event scroll event =
      (true,
        match event.direction with
        | .smooth =>
            [(.hadjustment,
              if scroll.text_direction = .rtl then -event.delta_x
              else event.delta_x),
             (.vadjustment, event.delta_y)]
        | .up => [(.vadjustment, -1)]
        | .down => [(.vadjustment, 1)]
        | .left =>
            [(.hadjustment, if scroll.text_direction = .rtl then 1 else -1)]
        | .right =>
            [(.hadjustment, if scroll.text_direction = .rtl then -1 else 1)]) := by
  unfold st_scroll_view_scroll_event
  cases hdir : event.direction <;>
    cases htd : scroll.text_direction <;>
      simp [hm, hp, hdir, htd, adjust_with_direction, mul_comm]

/-- C8 at concrete inputs: a smooth (5, -3) event under LTR forwards 5 to the
horizontal adjustment and -3 to the vertical one, and a discrete left event
under LTR forwards -1 to the horizontal adjustment. -/
theorem c8_scroll_event_routing_witness :
    st_scroll_view_scroll_event base_view
      { pointer_emulated := false, direction := .smooth,
        delta_x := 5, delta_y := -3 } =
      (true, [(.hadjustment, 5), (.vadjustment, -3)]) ∧
    st_scroll_view_scroll_event base_view
      { pointer_emulated := false, direction := .left,
        delta_x := 0, delta_y := 0 } =
      (true, [(.hadjustment, -1)]) := by
  constructor
  · simpa using c8_scroll_event_routing base_view
      { pointer_emulated := false, direction := .smooth,
        delta_x := 5, delta_y := -3 } rfl rfl
  · simpa using c8_scroll_event_routing base_view
      { pointer_emulated := false, direction := .left,
        delta_x := 0, delta_y := 0 } rfl rfl

/-- C3: for every policy pair and any allocation, the flags stored by
allocate are true on an ALWAYS axis, false on a NEVER or EXTERNAL axis, and,
with no child present, true exactly when the axis's policy is neither NEVER
nor EXTERNAL. -/
theorem c3_policy_visibility_invariants (scroll : StScrollView)
    (box : ClutterActorBox) :
    ((scroll.hscrollbar_policy = .always →
        (st_scroll_view_allocate scroll box).state.hscrollbar_visible = true) ∧
     (scroll.hscrollbar_policy = .never ∨ scroll.hscrollbar_policy = .external →
        (st_scroll_view_allocate scroll box).state.hscrollbar_visible = false)) ∧
    ((scroll.vscrollbar_policy = .always →
        (st_scroll_view_allocate scroll box).state.vscrollbar_visible = true) ∧
     (scroll.vscrollbar_policy = .never ∨ scroll.vscrollbar_policy = .external →
        (st_scroll_view_allocate scroll box).state.vscrollbar_visible = false)) ∧
    (scroll.child = none →
      (st_scroll_view_allocate scroll box).state.hscrollbar_visible =
        decide (scroll.hscrollbar_policy ≠ .never ∧
                scroll.hscrollbar_policy ≠ .external) ∧
      (st_scroll_view_allocate scroll box).state.vscrollbar_visible =
        decide (scroll.vscrollbar_policy ≠ .never ∧
                scroll.vscrollbar_policy ≠ .external)) := by
  cases hc : scroll.child <;>
    cases hh : scroll.hscrollbar_policy <;>
      cases hv : scroll.vscrollbar_policy <;>
        simp [st_scroll_view_allocate, allocate_visibility, resolve_visibility,
          hc, hh, hv]

/-- C3 at a concrete input: with no child, horizontal policy ALWAYS and
vertical policy NEVER, allocate stores a true horizontal and a false vertical
flag. -/
theorem c3_policy_visibility_witness :
    (st_scroll_view_allocate
      { base_view with hscrollbar_policy := .always, vscrollbar_policy := .never }
      c1_box).state.hscrollbar_visible = true ∧
    (st_scroll_view_allocate
      { base_view with hscrollbar_policy := .always, vscrollbar_policy := .never }
      c1_box).state.vscrollbar_visible = false := by
  refine ⟨(c3_policy_visibility_invariants
      { base_view with hscrollbar_policy := .always, vscrollbar_policy := .never }
      c1_box).1.1 rfl,
    (c3_policy_visibility_invariants
      { base_view with hscrollbar_policy := .always, vscrollbar_policy := .never }
      c1_box).2.1.2 (Or.inl rfl)⟩

/-- The width of the content box `st_scroll_view_allocate` derives for a
given allocation box (its `avail_width`). -/
def content_avail_width (scroll : StScrollView) (box : ClutterActorBox) : ℚ :=
  (scroll.theme_node.get_content_box box).x2 -
    (scroll.theme_node.get_content_box box).x1

/-- The height of the content box `st_scroll_view_allocate` derives for a
given allocation box (its `avail_height`). -/
def content_avail_height (scroll : StScrollView) (box : ClutterActorBox) : ℚ :=
  (scroll.theme_node.get_content_box box).y2 -
    (scroll.theme_node.get_content_box box).y1

/-- Child for the C2 input: minimum width 90 at any height. -/
def c2_child : StScrollableChild where
  get_preferred_width := fun _ => (90, 90)
  get_preferred_height := fun _ => (0, 0)

/-- C2 input: horizontal policy AUTOMATIC (the default), vertical policy
ALWAYS, the width-90 child, thickness-16 scrollbars. -/
def c2_state : StScrollView :=
  { base_view with child := some c2_child, vscrollbar_policy := .always }

/-- C2 input box: a 100×100 content box. -/
def c2_box : ClutterActorBox := { x1 := 0, y1 := 0, x2 := 100, y2 := 100 }

/-- C2 counterexample: with vertical policy ALWAYS (so the vertical bar is
visible), child minimum width 90, available height 100 and scrollbar width
16, the code computes `hscrollbar_visible = (90 > 100 - 0) = false` — the
code subtracts the vertical allowance exactly when the vertical bar is NOT
visible — while the claim's rule `90 > 100 - 16` predicts `true`. -/
theorem c2_claim_allowance_counterexample :
    (st_scroll_view_allocate c2_state c2_box).state.vscrollbar_visible = true ∧
    (st_scroll_view_allocate c2_state c2_box).state.hscrollbar_visible = false ∧
    decide ((90 : ℚ) > 100 - 16) = true := by
  refine ⟨rfl, ?_, by norm_num⟩
  norm_num [st_scroll_view_allocate, allocate_visibility, resolve_visibility,
    scrollbar_thickness, get_scrollbar_width, get_scrollbar_height, c2_state,
    c2_child, c2_box, base_view, bar16, id_theme_node]
  decide

/-- C2 amended: with a child present, horizontal policy AUTOMATIC and
vertical policy not AUTOMATIC, `vscrollbar_visible` is true iff the vertical
policy is ALWAYS, and `hscrollbar_visible` is true iff the child's minimum
width exceeds the available height minus the vertical allowance, the
allowance being subtracted exactly when the vertical scrollbar is NOT
visible (the code's `vscrollbar_visible ? 0 : sb_width`). -/
theorem c2_horizontal_automatic_amended (scroll : StScrollView)
    (child : StScrollableChild) (box : ClutterActorBox)
    (hc : scroll.child = some child)
    (hh : scroll.hscrollbar_policy = .automatic)
    (hv : scroll.vscrollbar_policy ≠ .automatic) :
    (st_scroll_view_allocate scroll box).state.vscrollbar_visible =
      decide (scroll.vscrollbar_policy = .always) ∧
    (st_scroll_view_allocate scroll box).state.hscrollbar_visible =
      decide ((child.get_preferred_width (-1)).1 >
        content_avail_height scroll box -
          (if scroll.vscrollbar_policy = .always then 0
           else (scrollbar_thickness scroll).1)) := by
  cases hvp : scroll.vscrollbar_policy
  case automatic => exact absurd hvp hv
  all_goals
    simp [st_scroll_view_allocate, allocate_visibility, resolve_visibility,
      content_avail_height, hc, hh, hvp]

/-- C2 amended at the concrete C2 input, the hypotheses discharged there. -/
theorem c2_horizontal_automatic_witness :
    (st_scroll_view_allocate c2_state c2_box).state.vscrollbar_visible =
      decide (c2_state.vscrollbar_policy = .always) ∧
    (st_scroll_view_allocate c2_state c2_box).state.hscrollbar_visible =
      decide ((c2_child.get_preferred_width (-1)).1 >
        content_avail_height c2_state c2_box -
          (if c2_state.vscrollbar_policy = .always then 0
           else (scrollbar_thickness c2_state).1)) :=
  c2_horizontal_automatic_amended c2_state c2_child c2_box rfl rfl (by decide)

/-- C6: with a child present and the vertical scrollbar actor visible, the
preferred-width query reports: minimum = the child's minimum width when the
horizontal policy is NEVER and 0 otherwise, natural = the child's natural
width, both increased by the vertical scrollbar's preferred width exactly
when the vertical policy is ALWAYS or AUTOMATIC and overlay scrollbars are
off, and the theme adjustment applied last. -/
theorem c6_preferred_width_policy (scroll : StScrollView)
    (child : StScrollableChild) (for_height : ℚ)
    (hc : scroll.child = some child) (hvis : scroll.vscroll.visible = true) :
    st_scroll_view_get_preferred_width scroll for_height =
      some (scroll.theme_node.adjust_preferred_width
        ((if scroll.hscrollbar_policy = .never
          then (child.get_preferred_width (-1)).1 else 0) +
         (if (scroll.vscrollbar_policy = .always ∨
              scroll.vscrollbar_policy = .automatic) ∧
             scroll.overlay_scrollbars = false
          then scroll.vscroll.get_preferred_width
            (scroll.theme_node.adjust_for_height for_height)
          else 0))
        ((child.get_preferred_width (-1)).2 +
         (if (scroll.vscrollbar_policy = .always ∨
              scroll.vscrollbar_policy = .automatic) ∧
             scroll.overlay_scrollbars = false
          then scroll.vscroll.get_preferred_width
            (scroll.theme_node.adjust_for_height for_height)
          else 0))) := by
  cases hh : scroll.hscrollbar_policy <;>
    cases hv : scroll.vscrollbar_policy <;>
      cases ho : scroll.overlay_scrollbars <;>
        simp [st_scroll_view_get_preferred_width, get_scrollbar_width, hc,
          hvis, hh, hv, ho]

/-- Child for the C6 input: minimum width 40, natural width 70. -/
def c6_child : StScrollableChild where
  get_preferred_width := fun _ => (40, 70)
  get_preferred_height := fun _ => (0, 0)

/-- C6 input: the width-40/70 child, horizontal policy NEVER, vertical
policy ALWAYS, reserved-space (non-overlay) thickness-16 scrollbars. -/
def c6_state : StScrollView :=
  { base_view with
    child := some c6_child
    hscrollbar_policy := .never
    vscrollbar_policy := .always }

/-- C6 at the concrete C6 input: minimum 40 + 16, natural 70 + 16. -/
theorem c6_preferred_width_witness :
    st_scroll_view_get_preferred_width c6_state 0 = some (56, 86) := by
  have h := c6_preferred_width_policy c6_state c6_child 0 rfl rfl
  norm_num [c6_state, c6_child, base_view, bar16, id_theme_node] at h
  convert h using 2

/-- The two-pass probe exactly as the claim describes it (the refinement side
to compare `resolve_both_automatic` against): pass one measures the child's
minimum height at the full available width, sets the provisional vertical
flag, derives the horizontal flag against the width minus the provisional
vertical allowance, recomputes the vertical flag against the height minus the
horizontal allowance; when the vertical flag stands, a second pass re-measures
the child at (available width − vertical scrollbar width) and redoes the
horizontal check against (available width − vertical scrollbar width). -/
def resolve_both_automatic_described (child_min_width : ℚ)
    (child_min_height_at : ℚ → ℚ)
    (avail_width avail_height sb_width sb_height : ℚ) : Bool × Bool :=
  let provisional_v := decide (child_min_height_at avail_width > avail_height)
  let h_visible :=
    decide (child_min_width >
      avail_width - (if provisional_v then sb_width else 0))
  let v_visible :=
    decide (child_min_height_at avail_width >
      avail_height - (if h_visible then sb_height else 0))
  if v_visible then
    let _second_pass_measure := child_min_height_at (avail_width - sb_width)
    (decide (child_min_width > avail_width - sb_width), v_visible)
  else
    (h_visible, v_visible)

/-- When pass one ends with the vertical flag set, the second-pass horizontal
check produces the same horizontal flag pass one computed (scrollbar width
non-negative): the second pass cannot flip the horizontal flag. -/
theorem pass_two_h_eq_pass_one_h (cmw cmh aw ah sbw sbh : ℚ) (hsb : 0 ≤ sbw)
    (hv1 : (both_automatic_pass_one cmw cmh aw ah sbw sbh).2 = true) :
    decide (cmw > aw - sbw) =
      (both_automatic_pass_one cmw cmh aw ah sbw sbh).1 := by
  simp only [both_automatic_pass_one] at hv1 ⊢
  by_cases hv0 : cmh > ah
  · rw [decide_eq_true hv0]
    simp
  · rw [decide_eq_false hv0] at hv1 ⊢
    simp only [Bool.false_eq_true, if_false, sub_zero] at hv1 ⊢
    by_cases hh1 : cmw > aw
    · rw [decide_eq_true hh1]
      exact decide_eq_true (by linarith)
    · rw [decide_eq_false hh1] at hv1
      simp only [Bool.false_eq_true, if_false, sub_zero] at hv1
      exact absurd (of_decide_eq_true hv1) hv0

/-- The both-AUTOMATIC resolver's horizontal flag is always the pass-one
horizontal flag: the second pass never changes it (scrollbar width
non-negative). -/
theorem resolve_both_automatic_h_eq_pass_one (child : StScrollableChild)
    (cmw aw ah sbw sbh : ℚ) (hsb : 0 ≤ sbw) :
    (resolve_both_automatic child cmw aw ah sbw sbh).1 =
      (both_automatic_pass_one cmw (child.get_preferred_height aw).1
        aw ah sbw sbh).1 := by
  simp only [resolve_both_automatic]
  by_cases h2 : (both_automatic_pass_one cmw (child.get_preferred_height aw).1
      aw ah sbw sbh).2 = true
  · rw [if_pos h2]
    exact pass_two_h_eq_pass_one_h cmw (child.get_preferred_height aw).1
      aw ah sbw sbh hsb h2
  · rw [if_neg h2]

/-- C1 amended: with a child present and both policies AUTOMATIC, allocate
resolves visibility exactly by the claim's two-pass probe (pass one as
described; when the vertical flag stands, the child is re-measured and the
horizontal check redone against available width minus the vertical scrollbar
width) — but the second pass's horizontal re-check always reproduces the
pass-one horizontal flag (for a non-negative scrollbar width): it cannot flip
horizontal-visible to true. -/
theorem c1_both_automatic_two_pass_amended (scroll : StScrollView)
    (child : StScrollableChild) (box : ClutterActorBox)
    (hc : scroll.child = some child)
    (hh : scroll.hscrollbar_policy = .automatic)
    (hv : scroll.vscrollbar_policy = .automatic)
    (hsb : 0 ≤ (scrollbar_thickness scroll).1) :
    allocate_visibility scroll box =
      resolve_both_automatic_described (child.get_preferred_width (-1)).1
        (fun w => (child.get_preferred_height w).1)
        (content_avail_width scroll box) (content_avail_height scroll box)
        (scrollbar_thickness scroll).1 (scrollbar_thickness scroll).2 ∧
    (allocate_visibility scroll box).1 =
      (both_automatic_pass_one (child.get_preferred_width (-1)).1
        (child.get_preferred_height (content_avail_width scroll box)).1
        (content_avail_width scroll box) (content_avail_height scroll box)
        (scrollbar_thickness scroll).1 (scrollbar_thickness scroll).2).1 := by
  have hres : allocate_visibility scroll box =
      resolve_both_automatic child (child.get_preferred_width (-1)).1
        (content_avail_width scroll box) (content_avail_height scroll box)
        (scrollbar_thickness scroll).1 (scrollbar_thickness scroll).2 := by
    simp [allocate_visibility, resolve_visibility, content_avail_width,
      content_avail_height, hc, hh, hv]
  constructor
  · rw [hres]
    rfl
  · rw [hres]
    exact resolve_both_automatic_h_eq_pass_one child
      (child.get_preferred_width (-1)).1 (content_avail_width scroll box)
      (content_avail_height scroll box) (scrollbar_thickness scroll).1
      (scrollbar_thickness scroll).2 hsb

/-- C1 counterexample, at the spec's own two-pass scenario (content box
300×200, scrollbar thickness 16, child minimum width 290, minimum height 250
at width 300 and 150 at width 284): the horizontal flag is already true at
the end of pass one, so the second pass has nothing to flip — it recomputes
the same `290 > 300 - 16` check pass one made once the provisional vertical
flag was set.  Both flags end true, as the spec expects, but not because any
flag flipped in pass two. -/
theorem c1_no_flip_at_spec_scenario :
    (both_automatic_pass_one (scenario_child.get_preferred_width (-1)).1
      (scenario_child.get_preferred_height 300).1 300 200 16 16).1 = true ∧
    (both_automatic_pass_one (scenario_child.get_preferred_width (-1)).1
      (scenario_child.get_preferred_height 300).1 300 200 16 16).2 = true ∧
    allocate_visibility c1_scenario_state c1_box = (true, true) := by
  refine ⟨?_, ?_, ?_⟩ <;>
    norm_num [both_automatic_pass_one, allocate_visibility, resolve_visibility,
      resolve_both_automatic, scrollbar_thickness, get_scrollbar_width,
      get_scrollbar_height, c1_scenario_state, scenario_child, c1_box,
      base_view, bar16, id_theme_node]

/-- C1 amended at the spec's scenario, the hypotheses discharged there. -/
theorem c1_both_automatic_two_pass_witness :
    allocate_visibility c1_scenario_state c1_box =
      resolve_both_automatic_described
        (scenario_child.get_preferred_width (-1)).1
        (fun w => (scenario_child.get_preferred_height w).1)
        (content_avail_width c1_scenario_state c1_box)
        (content_avail_height c1_scenario_state c1_box)
        (scrollbar_thickness c1_scenario_state).1
        (scrollbar_thickness c1_scenario_state).2 ∧
    (allocate_visibility c1_scenario_state c1_box).1 =
      (both_automatic_pass_one (scenario_child.get_preferred_width (-1)).1
        (scenario_child.get_preferred_height
          (content_avail_width c1_scenario_state c1_box)).1
        (content_avail_width c1_scenario_state c1_box)
        (content_avail_height c1_scenario_state c1_box)
        (scrollbar_thickness c1_scenario_state).1
        (scrollbar_thickness c1_scenario_state).2).1 :=
  c1_both_automatic_two_pass_amended c1_scenario_state scenario_child c1_box
    rfl rfl rfl
    (by norm_num [scrollbar_thickness, get_scrollbar_width,
      c1_scenario_state, base_view, bar16])

